import Mathlib

/-
Verification of the arbitrage repository's natural-language specification
against a shallow Lean embedding of its Python sources:

  * trade_events.py      — the Event Bus (TradeEventManager)
  * websocket_manager.py — the Market Data Stream (OrderBookState, PriceState,
                           WebSocketManager.connect/disconnect/_handle_message)
  * test_live_trade.py   — the live trading cycle (LiveTradingTest)

Prices, sizes, fees and P&L are embedded as exact rationals (ℚ); the Python
float +infinity is modelled by a dedicated constructor.  Effects (wall-clock
timestamps, the durable JSON file, raised exceptions) are made explicit:
timestamps are passed as parameters, the file is a field of the state, and an
operation that lets an exception escape reports `raised = true` while the
in-memory mutations it performed before the raise are kept, exactly as with a
Python object whose method throws midway.
-/

set_option autoImplicit false

namespace Arbitrage

/-! ## Event Bus: trade_events.py -/

/-- `TradeEvent.to_dict` (trade_events.py lines 13-26).  The message text that
the Python code builds with f-string numeric formatting is carried verbatim as
a `String`; no claim depends on the rendered digits.  `details` is the flat
numeric dictionary that `entry_executed`/`exit_executed` pass. -/
structure TradeEvent where
  timestamp : String
  event_type : String
  message : String
  details : List (String × ℚ)
  deriving DecidableEq, Repr

/-- The `current_position` dictionary built in `entry_executed`
(trade_events.py lines 83-89). -/
structure PositionRec where
  size : ℚ
  entry_spot : ℚ
  entry_perp : ℚ
  entry_spread : ℚ
  entry_time : String
  deriving DecidableEq, Repr

/-- The JSON object `_save` writes to `EVENTS_FILE`
(trade_events.py lines 60-66). -/
structure Snapshot where
  events : List TradeEvent
  trades_executed : Nat
  total_pnl : ℚ
  current_position : Option PositionRec
  last_update : String
  deriving DecidableEq, Repr

/-- In-memory state of `TradeEventManager` plus the durable file:
`file = none` means `EVENTS_FILE` does not exist. -/
structure EventState where
  events : List TradeEvent
  trades_executed : Nat
  total_pnl : ℚ
  current_position : Option PositionRec
  file : Option Snapshot
  deriving DecidableEq, Repr

/-- Python's negative-tail slice `xs[-n:]`: for `n = 0` the slice `[-0:]` is
`[0:]`, the whole list; otherwise the last `n` elements. -/
def pyLast {α : Type} (n : Nat) (xs : List α) : List α :=
  if n = 0 then xs else xs.drop (xs.length - n)

/-- Fresh manager state (`__new__`, trade_events.py lines 34-42) when no
durable file exists: `_load` finds nothing and leaves the zero state. -/
def initState : EventState :=
  { events := [], trades_executed := 0, total_pnl := 0
    current_position := none, file := none }

/-- `TradeEventManager._load` (lines 44-55): when the file exists, replace the
in-memory fields from it, truncating events to the last 100. -/
def eventLoad (st : EventState) : EventState :=
  match st.file with
  | none => st
  | some s =>
    { st with
      events := pyLast 100 s.events
      trades_executed := s.trades_executed
      total_pnl := s.total_pnl
      current_position := s.current_position }

/-- Result of a mutating Event Bus operation: the manager state after the call
(Python object mutations survive an exception) and whether an exception
escaped to the caller. -/
structure OpResult where
  st : EventState
  raised : Bool
  deriving DecidableEq, Repr

/-- `TradeEventManager._save` (lines 57-68).  The body has no try/except: when
the file write fails (`saveFails = true`) the exception escapes; otherwise the
snapshot, with events truncated to the last 100, replaces the file. -/
def eventSave (saveFails : Bool) (now : String) (st : EventState) : OpResult :=
  if saveFails then ⟨st, true⟩
  else
    ⟨{ st with
        file := some
          { events := pyLast 100 st.events
            trades_executed := st.trades_executed
            total_pnl := st.total_pnl
            current_position := st.current_position
            last_update := now } },
      false⟩

/-- `TradeEventManager.add_event` (lines 70-79): append the event, then
`_save`.  A save failure escapes after the append has happened. -/
def add_event (saveFails : Bool) (now ty msg : String)
    (details : List (String × ℚ)) (st : EventState) : OpResult :=
  eventSave saveFails now
    { st with events := st.events ++ [⟨now, ty, msg, details⟩] }

/-- `TradeEventManager.entry_executed` (lines 81-94): store the position
mirror, then `add_event "entry" ...`. -/
def entry_executed (saveFails : Bool) (now : String)
    (size spot_price perp_price spread : ℚ) (st : EventState) : OpResult :=
  add_event saveFails now "entry" "ENTRY"
    [("size", size), ("spot_price", spot_price),
     ("perp_price", perp_price), ("spread", spread)]
    { st with current_position := some ⟨size, spot_price, perp_price, spread, now⟩ }

/-- `TradeEventManager.exit_executed` (lines 96-105): bump the counters, clear
the position mirror, then `add_event "exit" ...`. -/
def exit_executed (saveFails : Bool) (now : String)
    (size spot_price perp_price net_pnl : ℚ) (st : EventState) : OpResult :=
  add_event saveFails now "exit" "EXIT"
    [("size", size), ("spot_price", spot_price),
     ("perp_price", perp_price), ("net_pnl", net_pnl)]
    { st with
      trades_executed := st.trades_executed + 1
      total_pnl := st.total_pnl + net_pnl
      current_position := none }

/-- `TradeEventManager.error` (lines 107-109). -/
def record_error (saveFails : Bool) (now msg : String)
    (details : List (String × ℚ)) (st : EventState) : OpResult :=
  add_event saveFails now "error" msg details st

/-- `TradeEventManager.get_events` (lines 111-114): refresh from the file,
then return `self._events[-limit:]`. -/
def get_events (limit : Nat) (st : EventState) : List TradeEvent :=
  pyLast limit (eventLoad st).events

/-- Appending a list of events through `add_event` with the file write
succeeding each time (used to state the persistence invariant). -/
def add_events (ins : List TradeEvent) (st : EventState) : EventState :=
  ins.foldl
    (fun s e => (add_event false e.timestamp e.event_type e.message e.details s).st)
    st

/-- The scenario of the entry/exit bookkeeping claim: `entry_executed` then
`exit_executed`, both with the file write succeeding. -/
def afterEntryExit (st : EventState) (n1 n2 : String)
    (sz sp pp spr esz esp epp net : ℚ) : EventState :=
  (exit_executed false n2 esz esp epp net
    (entry_executed false n1 sz sp pp spr st).st).st

/-! ## Price State Model: websocket_manager.py lines 22-63 -/

/-- `OrderBookState` (websocket_manager.py lines 22-34). -/
structure OrderBookState where
  symbol : String
  best_bid : ℚ
  best_ask : ℚ
  bid_size : ℚ
  ask_size : ℚ
  last_update : ℚ
  deriving DecidableEq, Repr

/-- `OrderBookState.is_valid` (lines 32-34). -/
def OrderBookState.is_valid (b : OrderBookState) : Bool :=
  decide (0 < b.best_bid) && decide (0 < b.best_ask)

/-- `PriceState` (lines 37-41). -/
structure PriceState where
  spot : OrderBookState
  perp : OrderBookState
  deriving DecidableEq, Repr

/-- `PriceState.is_ready` (lines 43-45). -/
def PriceState.is_ready (p : PriceState) : Bool :=
  p.spot.is_valid && p.perp.is_valid

/-- A Python float result that is either a finite value (embedded exactly as a
rational) or `float("inf")`. -/
inductive FloatVal where
  | fin (q : ℚ)
  | inf
  deriving DecidableEq, Repr

/-- `PriceState.get_entry_spread` (lines 47-54): 0 when not ready, else
`(perp.best_bid - spot.best_ask) / spot.best_ask`. -/
def PriceState.get_entry_spread (p : PriceState) : ℚ :=
  if p.is_ready then (p.perp.best_bid - p.spot.best_ask) / p.spot.best_ask else 0

/-- `PriceState.get_exit_spread` (lines 56-63): +infinity when not ready, else
`(perp.best_ask - spot.best_bid) / spot.best_bid`. -/
def PriceState.get_exit_spread (p : PriceState) : FloatVal :=
  if p.is_ready then
    FloatVal.fin ((p.perp.best_ask - p.spot.best_bid) / p.spot.best_bid)
  else FloatVal.inf

/-! ## Reconnect backoff and disconnect: websocket_manager.py lines 92-128, 217-222 -/

/-- Line 125-128: after a failed attempt the stored delay is doubled and
capped at `dmax`. -/
def nextDelay (dmax delay : ℚ) : ℚ := min (delay * 2) dmax

/-- The backoff wait slept before the `n`-th consecutive failed reconnection
attempt (0-indexed): the first wait is the initial delay `d` (line 90 /
line 105), each later one is the previous doubled and capped (line 125). -/
def backoffDelay (d dmax : ℚ) : Nat → ℚ
  | 0 => d
  | n + 1 => nextDelay dmax (backoffDelay d dmax n)

/-- How line 105 (on a successful connect) and line 125 (after a failed
attempt's sleep) update the stored `_reconnect_delay`. -/
def delayStep (d dmax : ℚ) (connected : Bool) (delay : ℚ) : ℚ :=
  if connected then d else nextDelay dmax delay

/-- `WebSocketManager` connection-control state: the `_running` flag and the
socket (`none` = never connected, `some b` = a socket whose open flag is `b`).
-/
structure WsManagerState where
  running : Bool
  ws : Option Bool
  deriving DecidableEq, Repr

/-- `WebSocketManager.disconnect` (lines 217-222): clear `_running`, close the
socket if one exists.  Closing an already-closed socket is a no-op. -/
def disconnect (m : WsManagerState) : WsManagerState :=
  { running := false, ws := m.ws.map (fun _ => false) }

/-- The sleeps performed by the `connect` loop (lines 96-128) when every
reconnection attempt fails immediately and `disconnect` is signalled during
the sleep numbered `k` (with current stored delay `delay`).  `asyncio.sleep`
at line 123 is a plain sleep that `disconnect` does not cancel, so the sleep
in progress when the signal arrives still runs for its full duration; the
cleared `_running` flag is only observed at the next `while` check (line 96),
after which the loop exits. -/
def connectSleepsFrom (dmax : ℚ) : ℚ → Nat → List ℚ
  | delay, 0 => [delay]
  | delay, k + 1 => delay :: connectSleepsFrom dmax (nextDelay dmax delay) k

/-- All backoff sleeps completed by `connect` between the first failed attempt
and loop exit, when `disconnect` is signalled during sleep number `k`. -/
def connectRunWithDisconnect (d dmax : ℚ) (k : Nat) : List ℚ :=
  connectSleepsFrom dmax d k

/-! ## Message handling: websocket_manager.py lines 160-211 -/

/-- The two configured symbols (`config.SPOT_SYMBOL`, `config.PERP_SYMBOL`). -/
structure BotConfig where
  spot_symbol : String
  perp_symbol : String
  deriving DecidableEq, Repr

/-- One order-book level `{px, sz}` (decimal strings, embedded as ℚ). -/
structure Level where
  px : ℚ
  sz : ℚ
  deriving DecidableEq, Repr

/-- The `data` payload of an `l2Book` frame: `{coin, levels:[bids[], asks[]]}`.
-/
structure L2Data where
  coin : String
  levels : List (List Level)
  deriving DecidableEq, Repr

/-- `float(side[0]["px"]) if side else 0.0` (lines 178-179). -/
def bestPx (side : List Level) : ℚ :=
  match side with
  | l :: _ => l.px
  | [] => 0

/-- `float(side[0]["sz"]) if side else 0.0` (lines 180-181). -/
def bestSz (side : List Level) : ℚ :=
  match side with
  | l :: _ => l.sz
  | [] => 0

/-- `WebSocketManager._handle_message` (lines 160-211), returning the new
price state and how many times the `on_price_update` listener is invoked
(`hasCb` is whether a listener is registered, `now` is `time.time()`).
The listener check at lines 210-211 sits at the end of the `l2Book` branch
and runs whether or not either symbol matched. -/
def handle_message (cfg : BotConfig) (hasCb : Bool) (now : ℚ)
    (channel : String) (d : L2Data) (ps : PriceState) : PriceState × Nat :=
  if channel = "subscriptionResponse" then (ps, 0)
  else if channel = "l2Book" then
    let bids := d.levels.getD 0 []
    let asks := d.levels.getD 1 []
    let ps' :=
      if d.coin = cfg.spot_symbol then
        { ps with spot := ⟨d.coin, bestPx bids, bestPx asks, bestSz bids, bestSz asks, now⟩ }
      else if d.coin = cfg.perp_symbol then
        { ps with perp := ⟨d.coin, bestPx bids, bestPx asks, bestSz bids, bestSz asks, now⟩ }
      else ps
    (ps', if hasCb && ps'.is_ready then 1 else 0)
  else (ps, 0)

/-! ## Execution Gateway results: test_live_trade.py lines 128-166 -/

/-- The `filled` object of a statuses entry: `{totalSz, avgPx, oid}`. -/
structure FilledInfo where
  totalSz : ℚ
  avgPx : ℚ
  oid : Nat
  deriving DecidableEq, Repr

/-- One `statuses` entry, a dictionary that may carry a `filled` key, an
`error` key, both, or neither (`"filled" in status` is checked before
`"error" in status`, lines 141-163). -/
structure StatusEntry where
  filledField : Option FilledInfo
  errorField : Option String
  deriving DecidableEq, Repr

/-- `response.data` of an order result. -/
structure OrderData where
  statuses : List StatusEntry
  deriving DecidableEq, Repr

/-- `response` of an order result: `{type, data}`. -/
structure OrderResponse where
  rtype : String
  data : OrderData
  deriving DecidableEq, Repr

/-- A gateway order result: `{status, response}`; `response = none` models a
result dictionary without a `response` key (`result.get("response", {})`). -/
structure OrderResult where
  status : String
  response : Option OrderResponse
  deriving DecidableEq, Repr

/-- The parsed fill dictionary `parse_order_result` returns.  A failure fill
carries `size = price = fee = 0` standing for the absent keys (see
`fillGetSize`). -/
structure Fill where
  success : Bool
  size : ℚ
  price : ℚ
  fee : ℚ
  oid : Option Nat
  err : Option String
  deriving DecidableEq, Repr

/-- The fixed taker fee rate `0.00025` of line 148. -/
def takerFeeRate : ℚ := 1 / 4000

/-- The `for status in statuses` loop of lines 141-163: return a success fill
at the first entry carrying `filled`, a failure at the first entry carrying
`error` (and not `filled`), skip entries carrying neither; falling off the end
is the "Unknown result format" failure of lines 165-166. -/
def scanStatuses : List StatusEntry → Fill
  | [] => ⟨false, 0, 0, 0, none, some "Unknown result format"⟩
  | s :: rest =>
    match s.filledField with
    | some f =>
      ⟨true, f.totalSz, f.avgPx, f.totalSz * f.avgPx * takerFeeRate, some f.oid, none⟩
    | none =>
      match s.errorField with
      | some e => ⟨false, 0, 0, 0, none, some e⟩
      | none => scanStatuses rest

/-- `LiveTradingTest.parse_order_result` (lines 128-166). -/
def parse_order_result (r : OrderResult) : Fill :=
  if r.status ≠ "ok" then ⟨false, 0, 0, 0, none, some "order failed"⟩
  else
    match r.response with
    | some resp =>
      if resp.rtype = "order" then scanStatuses resp.data.statuses
      else ⟨false, 0, 0, 0, none, some "Unknown result format"⟩
    | none => ⟨false, 0, 0, 0, none, some "Unknown result format"⟩

/-- The `statuses` entries of a result as the claim refers to them (empty when
the result has no response object). -/
def claimStatuses (r : OrderResult) : List StatusEntry :=
  match r.response with
  | some resp => resp.data.statuses
  | none => []

/-- The failure condition asserted by the claim: status not "ok", or some
statuses entry contains `error`, or no statuses entry contains `filled`. -/
def claimFailCondB (r : OrderResult) : Bool :=
  (!(r.status == "ok"))
    || (claimStatuses r).any (fun s => s.errorField.isSome)
    || (!((claimStatuses r).any (fun s => s.filledField.isSome)))

/-- The first statuses entry carrying a `filled` or an `error` key — the entry
at which the loop of lines 141-163 returns. -/
def firstSignif (l : List StatusEntry) : Option StatusEntry :=
  l.find? (fun s => s.filledField.isSome || s.errorField.isSome)

/-! ## Live trading cycle: test_live_trade.py lines 168-363 -/

/-- An order request as submitted through `place_spot_order` /
`place_perp_order`: `(is_buy, sz, limit_px, reduce_only)`. -/
structure OrderRequest where
  is_buy : Bool
  sz : ℚ
  px : ℚ
  reduce_only : Bool
  deriving DecidableEq, Repr

/-- `fill.get("size", default)` (lines 271-272): the `"size"` key is present
exactly on success fills. -/
def fillGetSize (f : Fill) (d : ℚ) : ℚ := if f.success then f.size else d

/-- The P&L block printed by `_print_summary` (lines 335-354). -/
structure Summary where
  spot_pnl : ℚ
  perp_pnl : ℚ
  gross_pnl : ℚ
  net_pnl : ℚ
  deriving DecidableEq, Repr

/-- Observable outcome of `run_test`: the four parsed fills, the exit orders
actually submitted (if the cycle reached them), the accumulated
`self.total_fees`, and the P&L summary (present only when all four fills
succeeded). -/
structure TestRun where
  entry_spot_fill : Fill
  entry_perp_fill : Fill
  exit_spot_fill : Option Fill
  exit_perp_fill : Option Fill
  exit_spot_order : Option OrderRequest
  exit_perp_order : Option OrderRequest
  total_fees : ℚ
  summary : Option Summary
  deriving DecidableEq, Repr

/-- `LiveTradingTest.run_test` (lines 168-292) together with the P&L block of
`_print_summary` (lines 335-354), as a function of the requested size, the
exit limit prices (computed upstream from fresh quotes, lines 264-269), and
the four gateway results.  `parse_order_result` adds each success fill's fee
to `self.total_fees` (line 149); failure fills contribute 0, which the `Fill`
embedding carries as their `fee` field.  If either entry leg fails, the exit
legs are never submitted (lines 244-247) and no P&L is printed. -/
def run_test (size exit_spot_price exit_perp_price : ℚ)
    (entrySpotRes entryPerpRes exitSpotRes exitPerpRes : OrderResult) : TestRun :=
  let f1 := parse_order_result entrySpotRes
  let f2 := parse_order_result entryPerpRes
  if f1.success && f2.success then
    let o3 : OrderRequest := ⟨false, fillGetSize f1 size, exit_spot_price, false⟩
    let f3 := parse_order_result exitSpotRes
    let o4 : OrderRequest := ⟨true, fillGetSize f2 size, exit_perp_price, true⟩
    let f4 := parse_order_result exitPerpRes
    let fees := f1.fee + f2.fee + f3.fee + f4.fee
    let summ :=
      if f3.success && f4.success then
        let spotPnl := (f3.price - f1.price) * f1.size
        let perpPnl := (f2.price - f4.price) * f2.size
        some ⟨spotPnl, perpPnl, spotPnl + perpPnl, spotPnl + perpPnl - fees⟩
      else none
    ⟨f1, f2, some f3, some f4, some o3, some o4, fees, summ⟩
  else ⟨f1, f2, none, none, none, none, f1.fee + f2.fee, none⟩

/-! ## Concrete sample inputs used by witnesses and counterexamples -/

/-- The spec's entry-spread example: spot ask 10.00, perp bid 10.02 (all four
best prices positive, so the state is ready). -/
def entryExamplePrice : PriceState :=
  ⟨⟨"@107", 10, 10, 1, 1, 0⟩, ⟨"HYPE", 1002/100, 1002/100, 1, 1, 0⟩⟩

/-- The spec's exit-spread example: spot bid 10.00, perp ask 9.995. -/
def exitExamplePrice : PriceState :=
  ⟨⟨"@107", 10, 10, 1, 1, 0⟩, ⟨"HYPE", 9995/1000, 9995/1000, 1, 1, 0⟩⟩

/-- A price state with one zero best price (spot best bid). -/
def zeroExamplePrice : PriceState :=
  ⟨⟨"@107", 0, 10, 0, 0, 0⟩, ⟨"HYPE", 10, 10, 1, 1, 0⟩⟩

/-- Two sample trade events. -/
def sampleEvents : List TradeEvent :=
  [⟨"t1", "entry", "m1", []⟩, ⟨"t2", "exit", "m2", []⟩]

/-- A durable snapshot holding the two sample events. -/
def sampleSnapshot : Snapshot := ⟨sampleEvents, 1, 5/2, none, "t2"⟩

/-- A manager state whose durable file holds `sampleSnapshot`. -/
def sampleBusState : EventState := ⟨[], 0, 0, none, some sampleSnapshot⟩

/-- Both configured symbols. -/
def cfgExample : BotConfig := ⟨"@107", "HYPE"⟩

/-- An l2Book payload for a coin matching neither configured symbol. -/
def strayBook : L2Data := ⟨"BTC", [[⟨5, 1⟩], [⟨6, 1⟩]]⟩

/-- A statuses entry carrying only a `filled` key. -/
def filledOnlyEntry : StatusEntry := ⟨some ⟨3, 5, 11⟩, none⟩

/-- A statuses entry carrying neither `filled` nor `error`. -/
def quietEntry : StatusEntry := ⟨none, none⟩

/-- A successful order result whose first significant statuses entry is a
fill. -/
def witnessOrderResult : OrderResult :=
  ⟨"ok", some ⟨"order", ⟨[quietEntry, filledOnlyEntry]⟩⟩⟩

/-- A statuses entry carrying only an `error` key. -/
def cexErrorEntry : StatusEntry := ⟨none, some "oops"⟩

/-- An order result with a `filled` entry before an `error` entry: the code
returns success at the first entry, while the claim's condition (some entry
contains `error`) demands failure. -/
def cexOrderResult : OrderResult :=
  ⟨"ok", some ⟨"order", ⟨[⟨some ⟨1, 2, 7⟩, none⟩, cexErrorEntry]⟩⟩⟩

/-- A gateway result whose single statuses entry is a fill of `sz` at `px`. -/
def mkFilledResult (sz px : ℚ) (oid : Nat) : OrderResult :=
  ⟨"ok", some ⟨"order", ⟨[⟨some ⟨sz, px, oid⟩, none⟩]⟩⟩⟩

/-! ## Helper lemmas -/

theorem pyLast_of_le {α : Type} (xs : List α) (h : xs.length ≤ 100) :
    pyLast 100 xs = xs := by
  unfold pyLast
  rw [if_neg (by norm_num)]
  have h0 : xs.length - 100 = 0 := by omega
  rw [h0, List.drop_zero]

theorem add_events_cons (e : TradeEvent) (ins : List TradeEvent) (st : EventState) :
    add_events (e :: ins) st =
      add_events ins (add_event false e.timestamp e.event_type e.message e.details st).st :=
  rfl

theorem add_events_events (ins : List TradeEvent) (st : EventState) :
    (add_events ins st).events = st.events ++ ins := by
  induction ins generalizing st with
  | nil => simp [add_events]
  | cons e ins ih =>
    rw [add_events_cons, ih]
    simp [add_event, eventSave]

theorem add_events_file_events (ins : List TradeEvent) (st : EventState) (h : ins ≠ []) :
    Option.map Snapshot.events (add_events ins st).file =
      some (pyLast 100 (st.events ++ ins)) := by
  induction ins generalizing st with
  | nil => exact absurd rfl h
  | cons e ins ih =>
    rw [add_events_cons]
    rcases eq_or_ne ins [] with hi | hi
    · subst hi
      simp [add_events, add_event, eventSave]
    · rw [ih _ hi]
      simp [add_event, eventSave]

/-! ## Claim theorems -/

/-- C1 (the code evaluated at the failing input): `_save` has no exception
handler, so when the durable file write fails `add_event` does not return
normally — the exception escapes to the caller — even though the in-memory
events list was already appended to; likewise `exit_executed`'s counter
updates happen but the exception still escapes.  This contradicts the claim
that a storage-write failure never propagates out of the operation. -/
theorem add_event_save_failure_escapes :
    (add_event true "t0" "error" "disk full" [] initState).raised = true ∧
    (add_event true "t0" "error" "disk full" [] initState).st.events.length = 1 ∧
    (add_event true "t0" "error" "disk full" [] initState).st.file = none ∧
    (exit_executed true "t0" 1 10 10 (42/100) initState).raised = true ∧
    (exit_executed true "t0" 1 10 10 (42/100) initState).st.trades_executed = 1 := by
  refine ⟨rfl, rfl, rfl, rfl, rfl⟩

/-- C5: from any Event Bus state, `entry_executed` followed by
`exit_executed` with net P&L +0.42 increments `trades_executed` by exactly 1,
adds exactly 0.42 to `total_pnl`, clears `current_position`, and appends
exactly one event of kind "exit" (preceded by the single "entry" event). -/
theorem entry_then_exit_spec (st : EventState) (n1 n2 : String)
    (sz sp pp spr esz esp epp : ℚ) :
    (afterEntryExit st n1 n2 sz sp pp spr esz esp epp (42/100)).trades_executed
        = st.trades_executed + 1 ∧
    (afterEntryExit st n1 n2 sz sp pp spr esz esp epp (42/100)).total_pnl
        = st.total_pnl + 42/100 ∧
    (afterEntryExit st n1 n2 sz sp pp spr esz esp epp (42/100)).current_position
        = none ∧
    (afterEntryExit st n1 n2 sz sp pp spr esz esp epp (42/100)).events.drop
        st.events.length =
      [⟨n1, "entry", "ENTRY",
         [("size", sz), ("spot_price", sp), ("perp_price", pp), ("spread", spr)]⟩,
       ⟨n2, "exit", "EXIT",
         [("size", esz), ("spot_price", esp), ("perp_price", epp), ("net_pnl", 42/100)]⟩] ∧
    List.countP (fun e => e.event_type == "exit")
      ((afterEntryExit st n1 n2 sz sp pp spr esz esp epp (42/100)).events.drop
        st.events.length) = 1 := by
  have hdrop :
      (afterEntryExit st n1 n2 sz sp pp spr esz esp epp (42/100)).events.drop
          st.events.length =
        [⟨n1, "entry", "ENTRY",
           [("size", sz), ("spot_price", sp), ("perp_price", pp), ("spread", spr)]⟩,
         ⟨n2, "exit", "EXIT",
           [("size", esz), ("spot_price", esp), ("perp_price", epp), ("net_pnl", 42/100)]⟩] := by
    show ((st.events ++ [_]) ++ [_]).drop st.events.length = _
    rw [List.append_assoc]
    exact List.drop_left _ _
  refine ⟨rfl, rfl, rfl, hdrop, ?_⟩
  rw [hdrop]
  simp [List.countP_cons]

/-- C6: after any nonempty run of `add_event`s from a fresh manager, the
durable snapshot holds exactly the most recent `min(n, 100)` of the `n`
events appended so far, as a suffix in append order; in particular appending
150 events leaves exactly the most recent 100 in durable storage. -/
theorem persist_keeps_last_100 (ins : List TradeEvent) (h : ins ≠ []) :
    Option.map Snapshot.events (add_events ins initState).file =
      some (ins.drop (ins.length - 100)) ∧
    (ins.drop (ins.length - 100)).length = min ins.length 100 ∧
    (ins.length = 150 →
      Option.map Snapshot.events (add_events ins initState).file =
          some (ins.drop 50) ∧
      (ins.drop 50).length = 100) := by
  have hfile := add_events_file_events ins initState h
  have hlast : pyLast 100 (initState.events ++ ins) = ins.drop (ins.length - 100) := by
    show pyLast 100 ([] ++ ins) = _
    rw [List.nil_append]
    unfold pyLast
    rw [if_neg (by norm_num)]
  rw [hlast] at hfile
  refine ⟨hfile, ?_, ?_⟩
  · rw [List.length_drop]
    omega
  · intro h150
    rw [h150] at hfile
    refine ⟨by simpa using hfile, ?_⟩
    rw [List.length_drop, h150]

/-- Witness for C6 at a concrete two-event run. -/
theorem persist_keeps_last_100_witness :
    sampleEvents ≠ [] ∧
    Option.map Snapshot.events (add_events sampleEvents initState).file =
      some (sampleEvents.drop (sampleEvents.length - 100)) ∧
    (sampleEvents.drop (sampleEvents.length - 100)).length =
      min sampleEvents.length 100 :=
  ⟨by simp [sampleEvents],
   (persist_keeps_last_100 sampleEvents (by simp [sampleEvents])).1,
   (persist_keeps_last_100 sampleEvents (by simp [sampleEvents])).2.1⟩

/-- C10: when the durable file holds `n ≤ 100` events (the Event Bus never
persists more), `get_events limit` returns exactly the most recent
`min(limit, n)` stored events in order for `limit > 0`, and for `limit = 0`
the whole stored list (the Python slice `[-0:]` is the full list). -/
theorem get_events_limit_spec (st : EventState) (s : Snapshot) (limit : Nat)
    (hf : st.file = some s) (hn : s.events.length ≤ 100) :
    (0 < limit →
      get_events limit st = s.events.drop (s.events.length - limit) ∧
      (get_events limit st).length = min limit s.events.length) ∧
    (limit = 0 → get_events limit st = s.events) := by
  have hload : (eventLoad st).events = s.events := by
    unfold eventLoad
    rw [hf]
    exact pyLast_of_le s.events hn
  constructor
  · intro hl
    have hps : get_events limit st = s.events.drop (s.events.length - limit) := by
      unfold get_events
      rw [hload]
      unfold pyLast
      rw [if_neg (Nat.pos_iff_ne_zero.mp hl)]
    refine ⟨hps, ?_⟩
    rw [hps, List.length_drop]
    omega
  · intro h0
    subst h0
    unfold get_events pyLast
    rw [hload, if_pos rfl]

/-- Witness for C10 at a concrete two-event snapshot, for `limit = 1` and
`limit = 0`. -/
theorem get_events_limit_spec_witness :
    sampleBusState.file = some sampleSnapshot ∧
    sampleSnapshot.events.length ≤ 100 ∧
    get_events 1 sampleBusState =
      sampleSnapshot.events.drop (sampleSnapshot.events.length - 1) ∧
    get_events 0 sampleBusState = sampleSnapshot.events :=
  ⟨rfl, by simp [sampleSnapshot, sampleEvents],
   ((get_events_limit_spec sampleBusState sampleSnapshot 1 rfl
      (by simp [sampleSnapshot, sampleEvents])).1 (by norm_num)).1,
   (get_events_limit_spec sampleBusState sampleSnapshot 0 rfl
      (by simp [sampleSnapshot, sampleEvents])).2 rfl⟩

/-- C3: when both legs have positive best bid and best ask, the state is
ready, the entry spread is `(perp.best_bid - spot.best_ask) / spot.best_ask`
and the exit spread is `(perp.best_ask - spot.best_bid) / spot.best_bid`;
when any of the four best prices is 0 the state is not ready, the entry
spread is 0 and the exit spread is +infinity.  The spec's numeric examples:
`entry_spread(spot_ask = 10.00, perp_bid = 10.02) = 0.0020` and
`exit_spread(spot_bid = 10.00, perp_ask = 9.995) = -0.0005`. -/
theorem price_spread_spec (p : PriceState) :
    ((0 < p.spot.best_bid ∧ 0 < p.spot.best_ask ∧
        0 < p.perp.best_bid ∧ 0 < p.perp.best_ask) →
      p.is_ready = true ∧
      p.get_entry_spread = (p.perp.best_bid - p.spot.best_ask) / p.spot.best_ask ∧
      p.get_exit_spread =
        FloatVal.fin ((p.perp.best_ask - p.spot.best_bid) / p.spot.best_bid)) ∧
    ((p.spot.best_bid = 0 ∨ p.spot.best_ask = 0 ∨
        p.perp.best_bid = 0 ∨ p.perp.best_ask = 0) →
      p.is_ready = false ∧ p.get_entry_spread = 0 ∧
      p.get_exit_spread = FloatVal.inf) ∧
    entryExamplePrice.get_entry_spread = 1/500 ∧
    exitExamplePrice.get_exit_spread = FloatVal.fin (-(1/2000)) := by
  refine ⟨?_, ?_, ?_, ?_⟩
  · rintro ⟨h1, h2, h3, h4⟩
    have hr : p.is_ready = true := by
      simp [PriceState.is_ready, OrderBookState.is_valid, h1, h2, h3, h4]
    exact ⟨hr, by simp [PriceState.get_entry_spread, hr],
           by simp [PriceState.get_exit_spread, hr]⟩
  · intro h
    have hr : p.is_ready = false := by
      simp only [PriceState.is_ready, OrderBookState.is_valid, Bool.and_eq_false_iff,
        decide_eq_false_iff_not, not_lt]
      rcases h with h | h | h | h <;> simp [h]
    exact ⟨hr, by simp [PriceState.get_entry_spread, hr],
           by simp [PriceState.get_exit_spread, hr]⟩
  · norm_num [PriceState.get_entry_spread, PriceState.is_ready,
      OrderBookState.is_valid, entryExamplePrice]
  · norm_num [PriceState.get_exit_spread, PriceState.is_ready,
      OrderBookState.is_valid, exitExamplePrice]

/-- Witness for C3: the all-positive example state is ready with the stated
spreads, and a state with a zero best bid is not ready. -/
theorem price_spread_spec_witness :
    (entryExamplePrice.is_ready = true ∧
     entryExamplePrice.get_entry_spread =
       (entryExamplePrice.perp.best_bid - entryExamplePrice.spot.best_ask) /
         entryExamplePrice.spot.best_ask ∧
     entryExamplePrice.get_exit_spread =
       FloatVal.fin
         ((entryExamplePrice.perp.best_ask - entryExamplePrice.spot.best_bid) /
           entryExamplePrice.spot.best_bid)) ∧
    (zeroExamplePrice.is_ready = false ∧
     zeroExamplePrice.get_entry_spread = 0 ∧
     zeroExamplePrice.get_exit_spread = FloatVal.inf) :=
  ⟨(price_spread_spec entryExamplePrice).1 (by norm_num [entryExamplePrice]),
   (price_spread_spec zeroExamplePrice).2.1 (Or.inl (by norm_num [zeroExamplePrice]))⟩

/-- Closed form of the stored reconnect delay: doubling capped at `dmax`. -/
theorem backoffDelay_closed (d dmax : ℚ) (h0 : 0 ≤ d) (h : d ≤ dmax) (n : Nat) :
    backoffDelay d dmax n = min (d * 2 ^ n) dmax := by
  induction n with
  | zero =>
    show d = min (d * 2 ^ 0) dmax
    rw [pow_zero, mul_one, min_eq_left h]
  | succ n ih =>
    show nextDelay dmax (backoffDelay d dmax n) = min (d * 2 ^ (n + 1)) dmax
    rw [ih]
    unfold nextDelay
    have hpow : (0:ℚ) ≤ d * 2 ^ n := by positivity
    have hd0 : (0:ℚ) ≤ dmax := le_trans h0 h
    rcases le_total (d * 2 ^ n) dmax with hc | hc
    · rw [min_eq_left hc]
      congr 1
      ring
    · rw [min_eq_right hc, min_eq_right (by linarith : dmax ≤ dmax * 2)]
      rw [eq_comm]
      apply min_eq_right
      calc dmax ≤ d * 2 ^ n := hc
        _ ≤ d * 2 ^ n * 2 := by linarith
        _ = d * 2 ^ (n + 1) := by ring

/-- C4: for initial delay `D ≥ 0` and cap `D_max ≥ D`, the backoff waits
before successive failed reconnection attempts are `D, 2D, 4D, ...` capped at
`D_max`; the stored delay never exceeds `D_max`; a successful (re)connect
resets the stored delay to `D`; and for `D = 5, D_max = 60` the waits are
`5, 10, 20, 40, 60, 60`. -/
theorem backoff_spec (d dmax : ℚ) (h0 : 0 ≤ d) (h : d ≤ dmax) :
    (∀ n, backoffDelay d dmax n = min (d * 2 ^ n) dmax) ∧
    (∀ n, backoffDelay d dmax n ≤ dmax) ∧
    (∀ x : ℚ, delayStep d dmax true x = d) ∧
    (List.range 6).map (backoffDelay 5 60) = [5, 10, 20, 40, 60, 60] := by
  refine ⟨backoffDelay_closed d dmax h0 h, ?_, fun x => rfl, ?_⟩
  · intro n
    rw [backoffDelay_closed d dmax h0 h]
    exact min_le_right _ _
  · have e1 : backoffDelay 5 60 1 = 10 := by
      show nextDelay 60 5 = 10
      unfold nextDelay
      rw [min_eq_left (by norm_num)]
      norm_num
    have e2 : backoffDelay 5 60 2 = 20 := by
      show nextDelay 60 (backoffDelay 5 60 1) = 20
      rw [e1]
      unfold nextDelay
      rw [min_eq_left (by norm_num)]
      norm_num
    have e3 : backoffDelay 5 60 3 = 40 := by
      show nextDelay 60 (backoffDelay 5 60 2) = 40
      rw [e2]
      unfold nextDelay
      rw [min_eq_left (by norm_num)]
      norm_num
    have e4 : backoffDelay 5 60 4 = 60 := by
      show nextDelay 60 (backoffDelay 5 60 3) = 60
      rw [e3]
      unfold nextDelay
      rw [min_eq_right (by norm_num)]
    have e5 : backoffDelay 5 60 5 = 60 := by
      show nextDelay 60 (backoffDelay 5 60 4) = 60
      rw [e4]
      unfold nextDelay
      rw [min_eq_right (by norm_num)]
    rw [show List.range 6 = [0, 1, 2, 3, 4, 5] from rfl]
    simp [e1, e2, e3, e4, e5]
    rfl

/-- Witness for C4 at `D = 5, D_max = 60, n = 3`. -/
theorem backoff_spec_witness :
    (0:ℚ) ≤ 5 ∧ (5:ℚ) ≤ 60 ∧ backoffDelay 5 60 3 = min (5 * 2 ^ 3) 60 :=
  ⟨by norm_num, by norm_num,
   (backoff_spec 5 60 (by norm_num) (by norm_num)).1 3⟩

theorem backoffDelay_shift (d dmax : ℚ) (n : Nat) :
    backoffDelay d dmax (n + 1) = backoffDelay (nextDelay dmax d) dmax n := by
  induction n with
  | zero => rfl
  | succ n ih =>
    show nextDelay dmax (backoffDelay d dmax (n + 1)) =
      nextDelay dmax (backoffDelay (nextDelay dmax d) dmax n)
    rw [ih]

theorem connectSleepsFrom_eq (dmax d : ℚ) (k : Nat) :
    connectSleepsFrom dmax d k = (List.range (k + 1)).map (backoffDelay d dmax) := by
  induction k generalizing d with
  | zero => rfl
  | succ k ih =>
    have hshift : ((backoffDelay d dmax) ∘ Nat.succ) = backoffDelay (nextDelay dmax d) dmax := by
      funext n
      exact backoffDelay_shift d dmax n
    show d :: connectSleepsFrom dmax (nextDelay dmax d) k = _
    rw [show List.range (k + 1 + 1) = 0 :: (List.range (k + 1)).map Nat.succ from
        List.range_succ_eq_map (k + 1)]
    rw [List.map_cons, List.map_map, hshift, ← ih]
    rfl

/-- C2 (amended): `disconnect()` is idempotent and clears the running flag,
but it does not cancel a pending backoff sleep: when `disconnect` is
signalled during backoff sleep number `k`, the `connect` loop still performs
every scheduled sleep up to and including that one in full — the waits
`backoffDelay d dmax 0, ..., backoffDelay d dmax k` — and only then observes
the cleared flag and terminates. -/
theorem disconnect_idempotent_backoff_completes :
    (∀ m : WsManagerState, disconnect (disconnect m) = disconnect m) ∧
    (∀ m : WsManagerState, (disconnect m).running = false) ∧
    (∀ (d dmax : ℚ) (k : Nat),
      connectRunWithDisconnect d dmax k =
        (List.range (k + 1)).map (backoffDelay d dmax)) := by
  refine ⟨?_, fun m => rfl, fun d dmax k => connectSleepsFrom_eq dmax d k⟩
  intro m
  cases m with
  | mk running ws => cases ws <;> rfl

/-- Counterexample for C2 as stated: with initial delay 5 and cap 60,
`disconnect` signalled at the start of the first backoff sleep does not make
the `connect` loop terminate early — the loop still sleeps the full 5 before
exiting, so the total time slept after the signal is not smaller than the
remaining backoff delay, contradicting "cancels that pending wait promptly
... terminates without completing the remaining backoff delay". -/
theorem disconnect_no_prompt_cancel_cex :
    connectRunWithDisconnect 5 60 0 = [5] ∧
    ¬ ((connectRunWithDisconnect 5 60 0).sum < 5) := by
  constructor
  · rfl
  · rw [show connectRunWithDisconnect 5 60 0 = [5] from rfl]
    simp

/-- C9: an `l2Book` message whose coin matches neither configured symbol
leaves both legs' order-book state completely unchanged, yet the registered
`on_price_update` listener is still invoked exactly once whenever the
existing price state is ready (and not at all otherwise) — the invocation is
not conditioned on an update having been applied. -/
theorem handle_message_frame (cfg : BotConfig) (now : ℚ) (d : L2Data)
    (ps : PriceState) (hs : d.coin ≠ cfg.spot_symbol)
    (hp : d.coin ≠ cfg.perp_symbol) :
    handle_message cfg true now "l2Book" d ps =
      (ps, if ps.is_ready then 1 else 0) := by
  unfold handle_message
  rw [if_neg (by decide), if_pos rfl]
  simp [hs, hp]

/-- Witness for C9: a book update for "BTC" under symbols `@107`/`HYPE`
leaves a ready price state unchanged and fires the listener once. -/
theorem handle_message_frame_witness :
    handle_message cfgExample true 0 "l2Book" strayBook entryExamplePrice =
      (entryExamplePrice, 1) := by
  have h := handle_message_frame cfgExample 0 strayBook entryExamplePrice
    (by decide) (by decide)
  rw [h, if_pos]
  norm_num [entryExamplePrice, PriceState.is_ready, OrderBookState.is_valid]

theorem scanStatuses_find (l : List StatusEntry) :
    ((scanStatuses l).success = false ↔
      (firstSignif l = none ∨
       ∃ s e, firstSignif l = some s ∧ s.filledField = none ∧
         s.errorField = some e)) ∧
    (∀ s f, firstSignif l = some s → s.filledField = some f →
      scanStatuses l =
        ⟨true, f.totalSz, f.avgPx, f.totalSz * f.avgPx * takerFeeRate,
         some f.oid, none⟩) := by
  induction l with
  | nil =>
    refine ⟨by simp [scanStatuses, firstSignif], ?_⟩
    intro s f hs _
    simp [firstSignif] at hs
  | cons a rest ih =>
    cases ha : a.filledField with
    | some f0 =>
      have hsig : firstSignif (a :: rest) = some a := by
        unfold firstSignif
        rw [List.find?_cons_of_pos _ (by simp [ha])]
      refine ⟨?_, ?_⟩
      · simp [scanStatuses, ha, hsig]
      · intro s f hs hf
        rw [hsig] at hs
        injection hs with hs
        subst hs
        rw [ha] at hf
        injection hf with hf
        subst hf
        simp [scanStatuses, ha]
    | none =>
      cases he : a.errorField with
      | some e0 =>
        have hsig : firstSignif (a :: rest) = some a := by
          unfold firstSignif
          rw [List.find?_cons_of_pos _ (by simp [he])]
        refine ⟨?_, ?_⟩
        · refine ⟨fun _ => Or.inr ⟨a, e0, hsig, ha, he⟩, fun _ => ?_⟩
          simp [scanStatuses, ha, he]
        · intro s f hs hf
          rw [hsig] at hs
          injection hs with hs
          subst hs
          rw [ha] at hf
          cases hf
      | none =>
        have hsig : firstSignif (a :: rest) = firstSignif rest := by
          unfold firstSignif
          rw [List.find?_cons_of_neg _ (by simp [ha, he])]
        have hscan : scanStatuses (a :: rest) = scanStatuses rest := by
          simp [scanStatuses, ha, he]
        rw [hscan, hsig]
        exact ih

/-- C7 (amended): `parse_order_result` reports a failed fill exactly when the
result status is not "ok", or the response type is not "order", or no
statuses entry contains `filled` or `error`, or the first statuses entry
containing `filled` or `error` is an error entry without a fill; and when the
first such entry contains `filled` (with status "ok" and type "order") it
returns success with `size = totalSz`, `price = avgPx` and
`fee = size × price × 0.00025`. -/
theorem parse_order_result_spec (r : OrderResult) :
    ((parse_order_result r).success = false ↔
      (r.status ≠ "ok" ∨
       Option.map OrderResponse.rtype r.response ≠ some "order" ∨
       firstSignif (claimStatuses r) = none ∨
       ∃ s e, firstSignif (claimStatuses r) = some s ∧
         s.filledField = none ∧ s.errorField = some e)) ∧
    (∀ s f, firstSignif (claimStatuses r) = some s → s.filledField = some f →
      r.status = "ok" → Option.map OrderResponse.rtype r.response = some "order" →
      parse_order_result r =
        ⟨true, f.totalSz, f.avgPx, f.totalSz * f.avgPx * takerFeeRate,
         some f.oid, none⟩) := by
  by_cases hok : r.status = "ok"
  · cases hr : r.response with
    | none =>
      refine ⟨?_, ?_⟩
      · simp [parse_order_result, hok, hr]
      · intro s f hs _ _ _
        simp [claimStatuses, hr, firstSignif] at hs
    | some resp =>
      have hcs : claimStatuses r = resp.data.statuses := by
        simp [claimStatuses, hr]
      by_cases ht : resp.rtype = "order"
      · have hp : parse_order_result r = scanStatuses resp.data.statuses := by
          simp [parse_order_result, hok, hr, ht]
        refine ⟨?_, ?_⟩
        · rw [hp, hcs, (scanStatuses_find resp.data.statuses).1]
          simp [hok, hr, ht]
        · intro s f hs hf _ _
          rw [hp]
          exact (scanStatuses_find resp.data.statuses).2 s f (hcs ▸ hs) hf
      · refine ⟨?_, ?_⟩
        · simp [parse_order_result, hok, hr, ht]
        · intro s f _ _ _ hmap
          simp at hmap
          exact absurd hmap ht
  · refine ⟨?_, ?_⟩
    · simp [parse_order_result, hok]
    · intro s f _ _ hok2 _
      exact absurd hok2 hok

/-- Witness for C7's amended theorem: a result whose first significant
statuses entry is a fill of 3 at price 5 parses to a success fill with the
stated fee. -/
theorem parse_order_result_spec_witness :
    parse_order_result witnessOrderResult =
      ⟨true, 3, 5, 3 * 5 * takerFeeRate, some 11, none⟩ :=
  (parse_order_result_spec witnessOrderResult).2 filledOnlyEntry ⟨3, 5, 11⟩
    (by decide) rfl rfl rfl

/-- Counterexample for C7 as stated: in `cexOrderResult` a statuses entry
contains `error`, so the claim's condition demands a failed fill, but the
code returns success at the earlier `filled` entry — the claimed "exactly
when" equivalence is false. -/
theorem parse_order_result_claim_cex :
    ¬ (((parse_order_result cexOrderResult).success = false) ↔
        claimFailCondB cexOrderResult = true) := by
  decide

/-- C8: when all four fills succeed, the exit legs are submitted sized to the
entry legs' actual filled sizes (spot sell, and perp reduce-only close buy),
the accrued fees are the sum of the four fills' fees, and the summary reports
`spot P&L = (exit spot price − entry spot price) × entry spot size`,
`perp P&L = (entry perp price − exit perp price) × entry perp size`,
`gross = spot + perp` and `net = gross − total fees`. -/
theorem run_test_pnl_spec (size esp epp : ℚ) (r1 r2 r3 r4 : OrderResult)
    (h1 : (parse_order_result r1).success = true)
    (h2 : (parse_order_result r2).success = true)
    (h3 : (parse_order_result r3).success = true)
    (h4 : (parse_order_result r4).success = true) :
    (run_test size esp epp r1 r2 r3 r4).exit_spot_order =
      some ⟨false, (parse_order_result r1).size, esp, false⟩ ∧
    (run_test size esp epp r1 r2 r3 r4).exit_perp_order =
      some ⟨true, (parse_order_result r2).size, epp, true⟩ ∧
    (run_test size esp epp r1 r2 r3 r4).total_fees =
      (parse_order_result r1).fee + (parse_order_result r2).fee +
        (parse_order_result r3).fee + (parse_order_result r4).fee ∧
    (run_test size esp epp r1 r2 r3 r4).summary =
      some
        ⟨((parse_order_result r3).price - (parse_order_result r1).price) *
            (parse_order_result r1).size,
         ((parse_order_result r2).price - (parse_order_result r4).price) *
            (parse_order_result r2).size,
         ((parse_order_result r3).price - (parse_order_result r1).price) *
            (parse_order_result r1).size +
          ((parse_order_result r2).price - (parse_order_result r4).price) *
            (parse_order_result r2).size,
         ((parse_order_result r3).price - (parse_order_result r1).price) *
            (parse_order_result r1).size +
          ((parse_order_result r2).price - (parse_order_result r4).price) *
            (parse_order_result r2).size -
          ((parse_order_result r1).fee + (parse_order_result r2).fee +
            (parse_order_result r3).fee + (parse_order_result r4).fee)⟩ := by
  refine ⟨?_, ?_, ?_, ?_⟩ <;>
    simp [run_test, h1, h2, h3, h4, fillGetSize]

/-- Witness for C8: four concrete filled results (entry spot 2 @ 10, entry
perp 2 @ 11, exit spot 2 @ 12, exit perp 2 @ 10) with requested size 1: the
exit legs are sized 2 (the filled size, not the requested 1), and the
summary is spot P&L 4, perp P&L 2, gross 6, net 6 − 43/2000. -/
theorem run_test_pnl_spec_witness :
    (run_test 1 9 11 (mkFilledResult 2 10 1) (mkFilledResult 2 11 2)
        (mkFilledResult 2 12 3) (mkFilledResult 2 10 4)).exit_spot_order =
      some ⟨false, 2, 9, false⟩ ∧
    (run_test 1 9 11 (mkFilledResult 2 10 1) (mkFilledResult 2 11 2)
        (mkFilledResult 2 12 3) (mkFilledResult 2 10 4)).exit_perp_order =
      some ⟨true, 2, 11, true⟩ ∧
    (run_test 1 9 11 (mkFilledResult 2 10 1) (mkFilledResult 2 11 2)
        (mkFilledResult 2 12 3) (mkFilledResult 2 10 4)).summary =
      some ⟨4, 2, 6, 6 - 43/2000⟩ := by
  have h := run_test_pnl_spec 1 9 11 (mkFilledResult 2 10 1)
    (mkFilledResult 2 11 2) (mkFilledResult 2 12 3) (mkFilledResult 2 10 4)
    (by decide) (by decide) (by decide) (by decide)
  refine ⟨?_, ?_, ?_⟩
  · rw [h.1]
    norm_num [parse_order_result, mkFilledResult, scanStatuses, takerFeeRate]
  · rw [h.2.1]
    norm_num [parse_order_result, mkFilledResult, scanStatuses, takerFeeRate]
  · rw [h.2.2.2]
    norm_num [parse_order_result, mkFilledResult, scanStatuses, takerFeeRate]

end Arbitrage
